import Mathlib

/-!
Verification of the core of the OctoPrint-PSUControl-TPLink plugin
(src/octoprint_psucontrol_tplink/__init__.py).

The embedding follows the Python source:

* Bytes are modelled as natural numbers (all values produced by the code
  stay below 256 because XOR of two bytes is a byte).
* JSON values produced by json.loads are modelled by the inductive type
  JVal (objects are ordered association lists with string keys, as Python
  dicts decoded from JSON; numbers are integers, which covers every value
  the protocol uses).
* Python subscripting, dict truthiness and the exceptions the code can
  raise (KeyError, IndexError, TypeError, ValueError) are modelled
  explicitly; a function that can let an exception escape returns
  Except PyErr.
* The network is modelled by an environment: for the byte-level transport
  (method send, lines 211-255) a NetEnv record holds the outcome of name
  resolution, connect, send, and the successive chunks returned by
  s.recv(1024); for the client layer (get_sysinfo, get_plug_state,
  send_to_plug, set_plug_state, turn_psu_on/off) an environment
  Nat -> SendRes gives the outcome of the n-th call to send, and the
  client is given a small state St that records the calls and frames it
  performs, so that ordering and fan-out claims can be stated.
* The receive loop of send (lines 238-248) has no bound in the source
  (the socket has no timeout configured), so it is embedded with explicit
  fuel: a result of none for every fuel models divergence of the loop.
-/

namespace TPLink

/-- Python exception kinds that the embedded code paths can raise. -/
inductive PyErr where
  | keyError
  | indexError
  | typeError
  | valueError
  deriving DecidableEq

/-- JSON values as decoded by Python's json.loads.  Object fields keep
insertion order, as Python dicts do.  Numbers are modelled as integers,
which covers all values appearing in the TP-Link protocol. -/
inductive JVal where
  | null
  | bool (b : Bool)
  | num (n : Int)
  | str (s : String)
  | arr (xs : List JVal)
  | obj (fields : List (String × JVal))

/-- Python truthiness of a decoded JSON value (used by statements such as
the line 160 check if not sysinfo). -/
def truthy : JVal → Bool
  | .null => false
  | .bool b => b
  | .num n => n != 0
  | .str s => s != ""
  | .arr xs => !xs.isEmpty
  | .obj fs => !fs.isEmpty

/-- First binding of a key in an ordered field list (Python dict lookup;
keys decoded from JSON are unique). -/
def lookupField : List (String × JVal) → String → Option JVal
  | [], _ => none
  | (k, v) :: fs, key => if k = key then some v else lookupField fs key

/-- Python subscripting v[key] with a string key: dict lookup (KeyError if
absent); every other JSON-decoded value raises TypeError. -/
def subscriptStr : JVal → String → Except PyErr JVal
  | .obj fs, key =>
      match lookupField fs key with
      | some v => .ok v
      | none => .error .keyError
  | _, _ => .error .typeError

/-- Python subscripting v[i] with a non-negative integer index: list
indexing (IndexError when out of range), string indexing (a one-character
string, IndexError when out of range); a JSON-decoded dict has only string
keys, so an integer subscript raises KeyError; other values raise
TypeError. -/
def subscriptNat : JVal → Nat → Except PyErr JVal
  | .obj _, _ => .error .keyError
  | .arr xs, i =>
      match xs.get? i with
      | some v => .ok v
      | none => .error .indexError
  | .str cs, i =>
      match cs.toList.get? i with
      | some c => .ok (.str (String.mk [c]))
      | none => .error .indexError
  | _, _ => .error .typeError

/-- Python dict assignment d[k] = v / d.update({k: v}): replace the value
in place when the key is present, otherwise append the binding at the end
(insertion order). -/
def dictSet : List (String × JVal) → String → JVal → List (String × JVal)
  | [], k, v => [(k, v)]
  | (k', v') :: fs, k, v =>
      if k' = k then (k, v) :: fs else (k', v') :: dictSet fs k v

/-! ## Cipher codec (source lines 137-154) -/

/-- The XOR keystream of encrypt (lines 140-143): for each input byte the
output is key XOR byte, and the key evolves from the output byte. -/
def encryptStream (key : Nat) : List Nat → List Nat
  | [] => []
  | b :: bs => (key ^^^ b) :: encryptStream (key ^^^ b) bs

/-- The XOR keystream of decrypt (lines 150-153): for each input byte the
output is key XOR byte, and the key evolves from the input byte. -/
def decryptStream (key : Nat) : List Nat → List Nat
  | [] => []
  | b :: bs => (key ^^^ b) :: decryptStream b bs

/-- encrypt (lines 137-144): the outgoing frame is three zero bytes, one
byte holding the plaintext length, then the keystream-encoded plaintext
(initial key 171).  Python's bytes([len(string)]) raises ValueError when
the length exceeds 255, hence the Option. -/
def encrypt (s : List Nat) : Option (List Nat) :=
  if s.length ≤ 255 then some ([0, 0, 0, s.length] ++ encryptStream 171 s) else none

/-- decrypt (lines 147-154), applied by send to the response payload:
the keystream decode with initial key 171 (latin-1 decoding of the result
is a bijection between bytes and code points, so the model stays on
bytes). -/
def decrypt (s : List Nat) : List Nat := decryptStream 171 s

/-! ## Frame transport (method send, source lines 211-255) -/

/-- struct.unpack of a big-endian 32-bit length from the first four bytes
of the response (line 240); fewer than four bytes raise struct.error,
modelled as none. -/
def parseLen (data : List Nat) : Option Nat :=
  match data with
  | b0 :: b1 :: b2 :: b3 :: _ => some (((b0 * 256 + b1) * 256 + b2) * 256 + b3)
  | _ => none

/-- The receive loop of lines 241-242: while len(data) - 4 < L (over
Python integers this is exactly data.length < L + 4), append the next
recv chunk.  chunks i is the result of the i-th recv call (the loop's
first extra read is chunk 1; chunk 0 was read at line 239).  The source
loop is unbounded, so fuel makes it total: none means the fuel ran out,
and a result of none for every fuel models divergence. -/
def recvLoop : Nat → (Nat → List Nat) → Nat → List Nat → Nat → Option (List Nat)
  | 0, _, _, _, _ => none
  | fuel + 1, chunks, L, data, i =>
      if data.length < L + 4 then recvLoop fuel chunks L (data ++ chunks i) (i + 1)
      else some data

/-- Concatenation of recv chunks 0..n: the accumulated data after n extra
reads beyond the first. -/
def accum (chunks : Nat → List Nat) : Nat → List Nat
  | 0 => chunks 0
  | n + 1 => accum chunks n ++ chunks (n + 1)

/-- Outcome of the network operations performed by one call to send.
The socket is created in blocking mode and no timeout is ever configured
on it, so recv never raises socket.timeout by itself; the recvTimeout
flag keeps the handler of line 243 representable. -/
structure NetEnv where
  resolves : Bool
  connects : Bool
  sendOk : Bool
  recvTimeout : Bool
  chunks : Nat → List Nat

/-- What one call to send produces: the empty dict assigned at line 215
and returned by every handled failure branch; the decrypted payload bytes
handed to json.loads on the success path (line 252); or an exception that
escapes send. -/
inductive SendResult where
  | emptyResult
  | plaintext (p : List Nat)
  | raised (e : PyErr)

/-- Observable effects of one call to send: its result, whether a frame
was written to the wire (line 233 succeeded), and whether s.close() was
executed (line 250). -/
structure SendOut where
  result : SendResult
  sent : Bool
  closed : Bool

/-- The transport method send (lines 211-255) over a network environment.
Following the source: resolution failure and connect failure return the
empty result; encrypt is evaluated inside the s.send call, so an
over-long command raises ValueError, which no except clause catches;
socket.error on send, socket.timeout during receive and struct.error on
the length all return the empty result; only the success path reaches
s.close() at line 250.  The returned payload is decrypt(data[4:]) with
data the full accumulated response (line 252). -/
def sendModel (fuel : Nat) (env : NetEnv) (cmd : List Nat) : Option SendOut :=
  if env.resolves then
    if env.connects then
      match encrypt cmd with
      | none => some ⟨.raised .valueError, false, false⟩
      | some _frame =>
        if env.sendOk then
          if env.recvTimeout then some ⟨.emptyResult, true, false⟩
          else
            match parseLen (env.chunks 0) with
            | none => some ⟨.emptyResult, true, false⟩
            | some L =>
              match recvLoop fuel env.chunks L (env.chunks 0) 1 with
              | none => none
              | some data => some ⟨.plaintext (decrypt (data.drop 4)), true, true⟩
        else some ⟨.emptyResult, false, false⟩
    else some ⟨.emptyResult, false, false⟩
  else some ⟨.emptyResult, false, false⟩

/-! ## Device command client (source lines 68-209)

At this layer a call to send is abstracted by its observable outcome: the
parsed JSON value it returns (the empty dict on every handled transport
failure), whether the frame was actually delivered to the wire, or an
exception escaping send (such as a json.loads failure).  An environment
Nat -> SendRes fixes the outcome of the n-th send call, and the client
state St records each call and each send so that ordering and fan-out
properties can be stated. -/

/-- Outcome of one call to send as seen by the client layer: a returned
JSON value together with whether the frame was delivered to the wire, or
an exception escaping send (delivered tells whether the frame had already
been written when the exception was raised). -/
inductive SendRes where
  | val (delivered : Bool) (v : JVal)
  | raise (delivered : Bool) (e : PyErr)

/-- Trace events of the client: a set_plug_state invocation on an outlet
(host, plug index, relay state), and a send invocation carrying the
command and whether the frame was delivered. -/
inductive Evt where
  | callEvt (host : String) (plug : Nat) (state : Int)
  | sendEvt (host : String) (cmd : JVal) (delivered : Bool)

/-- Host an event refers to. -/
def evtHost : Evt → String
  | .callEvt h _ _ => h
  | .sendEvt h _ _ => h

/-- Client state: the index of the next send call and the event trace. -/
structure St where
  k : Nat
  trace : List Evt

/-- Record an event without consuming a send outcome. -/
def pushEvt (s : St) (e : Evt) : St := ⟨s.k, s.trace ++ [e]⟩

/-- One client-level call to send (line 70 / 209 / 233): consumes the
next environment outcome and records the send event. -/
def sendC (env : Nat → SendRes) (host : String) (cmd : JVal) (s : St) :
    Except PyErr JVal × St :=
  match env s.k with
  | .val d v => (.ok v, ⟨s.k + 1, s.trace ++ [.sendEvt host cmd d]⟩)
  | .raise d e => (.error e, ⟨s.k + 1, s.trace ++ [.sendEvt host cmd d]⟩)

/-- The get-system-info command dict(system=dict(get_sysinfo=dict()))
(line 69). -/
def cmdSysinfo : List (String × JVal) := [("system", .obj [("get_sysinfo", .obj [])])]

/-- The set-relay-state command dict(system=dict(set_relay_state=dict(state=state)))
(line 180). -/
def cmdSetRelay (state : Int) : List (String × JVal) :=
  [("system", .obj [("set_relay_state", .obj [("state", .num state)])])]

/-- Extraction of result['system']['get_sysinfo'] with the
except (TypeError, KeyError) handler returning dict() (lines 72-76);
subscripting a decoded JSON value can only raise those two errors, so
the handler catches every failure. -/
def extract_sysinfo (r : JVal) : JVal :=
  match (subscriptStr r "system").bind (fun s => subscriptStr s "get_sysinfo") with
  | .ok v => v
  | .error _ => .obj []

/-- get_sysinfo (lines 68-76): send the sysinfo command and extract the
nested object; an exception escaping send propagates. -/
def get_sysinfo (env : Nat → SendRes) (host : String) (s : St) :
    Except PyErr JVal × St :=
  match sendC env host (.obj cmdSysinfo) s with
  | (.ok r, s') => (.ok (extract_sysinfo r), s')
  | (.error e, s') => (.error e, s')

/-- The chain sysinfo['children'][plug - 1][key] (lines 167 and 201). -/
def resolve_child (si : JVal) (plug : Nat) (key : String) : Except PyErr JVal := do
  let c ← subscriptStr si "children"
  let e ← subscriptNat c (plug - 1)
  subscriptStr e key

/-- The body of get_plug_state after the sysinfo fetch (lines 160-177):
empty/falsy sysinfo returns False; for plug > 0 the children chain is
evaluated with an except clause that catches only KeyError (line 168), so
any other exception (notably IndexError from an out-of-range index)
escapes; for plug == 0 relay_state is read under the same kind of
handler. -/
def get_plug_state_body (si : JVal) (plug : Nat) : Except PyErr Bool :=
  if truthy si then
    if plug > 0 then
      match resolve_child si plug "state" with
      | .ok v => .ok (truthy v)
      | .error .keyError => .ok false
      | .error e => .error e
    else
      match subscriptStr si "relay_state" with
      | .ok v => .ok (truthy v)
      | .error .keyError => .ok false
      | .error e => .error e
  else .ok false

/-- get_plug_state (lines 156-177): fetch sysinfo, then interpret it. -/
def get_plug_state (env : Nat → SendRes) (host : String) (plug : Nat) (s : St) :
    Except PyErr Bool × St :=
  match get_sysinfo env host s with
  | (.ok si, s') => (get_plug_state_body si plug, s')
  | (.error e, s') => (.error e, s')

/-- send_to_plug (lines 193-209): for plug > 0 fetch sysinfo first and
return dict() without sending when it is falsy; resolve
children[plug-1]['id'] under an except clause catching only KeyError
(line 202) and return dict() without sending on that failure; otherwise
update the command with context.child_ids=[device_id] and send it.  For
plug == 0 the command is sent unmodified. -/
def send_to_plug (env : Nat → SendRes) (cmd : List (String × JVal)) (host : String)
    (plug : Nat) (s : St) : Except PyErr Unit × St :=
  if plug > 0 then
    match get_sysinfo env host s with
    | (.error e, s1) => (.error e, s1)
    | (.ok si, s1) =>
      if truthy si then
        match resolve_child si plug "id" with
        | .ok devId =>
            match sendC env host
                (.obj (dictSet cmd "context" (.obj [("child_ids", .arr [devId])]))) s1 with
            | (.ok _, s2) => (.ok (), s2)
            | (.error e, s2) => (.error e, s2)
        | .error .keyError => (.ok (), s1)
        | .error e => (.error e, s1)
      else (.ok (), s1)
  else
    match sendC env host (.obj cmd) s with
    | (.ok _, s1) => (.ok (), s1)
    | (.error e, s1) => (.error e, s1)

/-- set_plug_state (lines 179-181), with its invocation recorded in the
trace; turn_on_plug / turn_off_plug (lines 184-191) are this with state
1 / 0. -/
def set_plug_state (env : Nat → SendRes) (state : Int) (host : String) (plug : Nat)
    (s : St) : Except PyErr Unit × St :=
  send_to_plug env (cmdSetRelay state) host plug (pushEvt s (.callEvt host plug state))

/-! ## Outlet fan-out (source lines 79-133) -/

/-- The settings the fan-out reads (get_settings_defaults, lines 24-36):
the main outlet, and the light and other auxiliary outlets with their
enabled flags. -/
structure Config where
  address : String
  plug : Nat
  lightEnabled : Bool
  lightAddress : String
  lightPlug : Nat
  otherEnabled : Bool
  otherAddress : String
  otherPlug : Nat

/-- Common body of turn_psu_on (lines 79-87) and turn_psu_off (lines
90-99), which are textually identical up to the relay state constant:
switch the main outlet, then the light outlet when lightEnabled, then the
other outlet when otherEnabled. -/
def psu_fanout (env : Nat → SendRes) (state : Int) (cfg : Config) (s : St) :
    Except PyErr Unit × St :=
  match set_plug_state env state cfg.address cfg.plug s with
  | (.error e, s1) => (.error e, s1)
  | (.ok _, s1) =>
    match (if cfg.lightEnabled then
             set_plug_state env state cfg.lightAddress cfg.lightPlug s1
           else (.ok (), s1)) with
    | (.error e, s2) => (.error e, s2)
    | (.ok _, s2) =>
        if cfg.otherEnabled then set_plug_state env state cfg.otherAddress cfg.otherPlug s2
        else (.ok (), s2)

/-- turn_psu_on (lines 79-87). -/
def turn_psu_on (env : Nat → SendRes) (cfg : Config) (s : St) : Except PyErr Unit × St :=
  psu_fanout env 1 cfg s

/-- turn_psu_off (lines 90-99). -/
def turn_psu_off (env : Nat → SendRes) (cfg : Config) (s : St) : Except PyErr Unit × St :=
  psu_fanout env 0 cfg s

/-- The set_plug_state invocations recorded in a trace, in order. -/
def callsOf (t : List Evt) : List (String × Nat × Int) :=
  t.filterMap fun e =>
    match e with
    | .callEvt h p st => some (h, p, st)
    | _ => none

/-- Whether an event is a frame delivered to host a. -/
def isDeliveredTo (a : String) : Evt → Bool
  | .sendEvt h _ d => d && (h == a)
  | _ => false

/-- Number of frames delivered to host a in a trace. -/
def deliveredTo (t : List Evt) (a : String) : Nat := t.countP (isDeliveredTo a)

/-! ## Helper lemmas -/

lemma decryptStream_encryptStream (key : Nat) (x : List Nat) :
    decryptStream key (encryptStream key x) = x := by
  induction x generalizing key with
  | nil => rfl
  | cons b bs ih =>
      show (key ^^^ (key ^^^ b)) :: decryptStream (key ^^^ b) (encryptStream (key ^^^ b) bs)
        = b :: bs
      rw [← Nat.xor_assoc, Nat.xor_self, Nat.zero_xor, ih]

lemma decryptStream_length (key : Nat) (x : List Nat) :
    (decryptStream key x).length = x.length := by
  induction x generalizing key with
  | nil => rfl
  | cons b bs ih => simpa [decryptStream] using ih b

/-- Whatever the receive loop returns gathers exactly the first chunks,
reaches the threshold, and is the first accumulation to do so. -/
lemma recvLoop_sound (chunks : Nat → List Nat) (L : Nat) :
    ∀ (fuel n : Nat) (data : List Nat),
      recvLoop fuel chunks L (accum chunks n) (n + 1) = some data →
      L + 4 ≤ data.length ∧
      ∃ m, n ≤ m ∧ data = accum chunks m ∧
        ∀ j, n ≤ j → j < m → (accum chunks j).length < L + 4 := by
  intro fuel
  induction fuel with
  | zero => intro n data h; exact absurd h (by simp [recvLoop])
  | succ f ih =>
      intro n data h
      simp only [recvLoop] at h
      by_cases hc : (accum chunks n).length < L + 4
      · rw [if_pos hc] at h
        have h' : recvLoop f chunks L (accum chunks (n + 1)) (n + 1 + 1) = some data := by
          simpa [accum] using h
        obtain ⟨hlen, m, hm, hdata, hmin⟩ := ih (n + 1) data h'
        refine ⟨hlen, m, Nat.le_trans (Nat.le_succ n) hm, hdata, ?_⟩
        intro j hj1 hj2
        rcases Nat.eq_or_lt_of_le hj1 with hEq | hlt
        · exact hEq ▸ hc
        · exact hmin j hlt hj2
      · rw [if_neg hc] at h
        have hd : accum chunks n = data := Option.some.inj h
        subst hd
        exact ⟨Nat.le_of_not_lt hc, n, Nat.le_refl n, rfl,
          fun j hj1 hj2 => absurd (Nat.lt_of_le_of_lt hj1 hj2) (lt_irrefl n)⟩

/-- If some accumulation of chunks reaches the threshold, enough fuel
makes the receive loop return. -/
lemma recvLoop_complete (chunks : Nat → List Nat) (L : Nat) :
    ∀ (k n : Nat), L + 4 ≤ (accum chunks (n + k)).length →
      ∃ fuel data, recvLoop fuel chunks L (accum chunks n) (n + 1) = some data := by
  intro k
  induction k with
  | zero =>
      intro n h
      refine ⟨1, accum chunks n, ?_⟩
      simp only [recvLoop]
      rw [if_neg (Nat.not_lt.mpr (by simpa using h))]
  | succ k ih =>
      intro n h
      by_cases hc : (accum chunks n).length < L + 4
      · have h' : L + 4 ≤ (accum chunks (n + 1 + k)).length := by
          have he : n + 1 + k = n + (k + 1) := by omega
          rw [he]; exact h
        obtain ⟨f, data, hf⟩ := ih (n + 1) h'
        refine ⟨f + 1, data, ?_⟩
        simp only [recvLoop]
        rw [if_pos hc]
        simpa [accum] using hf
      · exact ⟨1, accum chunks n, by simp only [recvLoop]; rw [if_neg hc]⟩

/-- When every read after the first returns the empty chunk, the
accumulated data never grows. -/
lemma accum_const_of_empty (chunks : Nat → List Nat)
    (h : ∀ m, 1 ≤ m → chunks m = []) : ∀ n, accum chunks n = chunks 0 := by
  intro n
  induction n with
  | zero => rfl
  | succ n ih => simp [accum, ih, h (n + 1) (by omega)]

lemma lookupField_dictSet (fs : List (String × JVal)) (k : String) (v : JVal) :
    lookupField (dictSet fs k v) k = some v := by
  induction fs with
  | nil => simp [dictSet, lookupField]
  | cons p fs ih =>
      obtain ⟨k', v'⟩ := p
      by_cases hk : k' = k
      · simp [dictSet, hk, lookupField]
      · simp [dictSet, hk, lookupField, ih]

/-- Every event send_to_plug appends to the trace refers to the host it
was called with. -/
lemma stp_host (env : Nat → SendRes) (cmd : List (String × JVal)) (host : String)
    (plug : Nat) (s : St) :
    ∃ tr, (send_to_plug env cmd host plug s).2.trace = s.trace ++ tr ∧
      ∀ e ∈ tr, evtHost e = host := by
  by_cases hp : plug > 0
  · cases h0 : env s.k with
    | raise d e =>
        refine ⟨[.sendEvt host (.obj cmdSysinfo) d], ?_, ?_⟩
        · simp [send_to_plug, get_sysinfo, sendC, hp, h0]
        · intro e he
          rcases List.mem_singleton.mp he with rfl
          rfl
    | val d v =>
        cases ht : truthy (extract_sysinfo v) with
        | false =>
            refine ⟨[.sendEvt host (.obj cmdSysinfo) d], ?_, ?_⟩
            · simp [send_to_plug, get_sysinfo, sendC, hp, h0, ht]
            · intro e he
              rcases List.mem_singleton.mp he with rfl
              rfl
        | true =>
            cases hrc : resolve_child (extract_sysinfo v) plug "id" with
            | ok devId =>
                cases h1 : env (s.k + 1) with
                | val d₂ w =>
                    refine ⟨[.sendEvt host (.obj cmdSysinfo) d,
                      .sendEvt host (.obj (dictSet cmd "context"
                        (.obj [("child_ids", .arr [devId])]))) d₂], ?_, ?_⟩
                    · simp [send_to_plug, get_sysinfo, sendC, hp, h0, ht, hrc, h1]
                    · intro e he
                      rcases List.mem_cons.mp he with rfl | he
                      · rfl
                      · rcases List.mem_singleton.mp he with rfl
                        rfl
                | raise d₂ e =>
                    refine ⟨[.sendEvt host (.obj cmdSysinfo) d,
                      .sendEvt host (.obj (dictSet cmd "context"
                        (.obj [("child_ids", .arr [devId])]))) d₂], ?_, ?_⟩
                    · simp [send_to_plug, get_sysinfo, sendC, hp, h0, ht, hrc, h1]
                    · intro e he
                      rcases List.mem_cons.mp he with rfl | he
                      · rfl
                      · rcases List.mem_singleton.mp he with rfl
                        rfl
            | error e =>
                refine ⟨[.sendEvt host (.obj cmdSysinfo) d], ?_, ?_⟩
                · cases e <;> simp [send_to_plug, get_sysinfo, sendC, hp, h0, ht, hrc]
                · intro e he
                  rcases List.mem_singleton.mp he with rfl
                  rfl
  · cases h0 : env s.k with
    | val d v =>
        refine ⟨[.sendEvt host (.obj cmd) d], ?_, ?_⟩
        · simp [send_to_plug, sendC, hp, h0]
        · intro e he
          rcases List.mem_singleton.mp he with rfl
          rfl
    | raise d e =>
        refine ⟨[.sendEvt host (.obj cmd) d], ?_, ?_⟩
        · simp [send_to_plug, sendC, hp, h0]
        · intro e he
          rcases List.mem_singleton.mp he with rfl
          rfl

/-- Every event set_plug_state appends to the trace refers to the host it
was called with. -/
lemma sps_host (env : Nat → SendRes) (stv : Int) (host : String) (plug : Nat) (s : St) :
    ∃ tr, (set_plug_state env stv host plug s).2.trace = s.trace ++ tr ∧
      ∀ e ∈ tr, evtHost e = host := by
  obtain ⟨tr, htr, hh⟩ :=
    stp_host env (cmdSetRelay stv) host plug (pushEvt s (.callEvt host plug stv))
  refine ⟨.callEvt host plug stv :: tr, ?_, ?_⟩
  · rw [set_plug_state, htr]
    simp [pushEvt]
  · intro e he
    rcases List.mem_cons.mp he with rfl | he
    · rfl
    · exact hh e he

/-- Under an environment where every send returns an empty dict (a
transport failure or an empty response), set_plug_state performs exactly
its call and one send, and returns normally (no exception). -/
lemma sps_empty (env : Nat → SendRes) (stv : Int) (host : String) (plug : Nat) (s : St)
    (d : Bool) (h : env s.k = SendRes.val d (JVal.obj [])) :
    ∃ c, set_plug_state env stv host plug s =
      (Except.ok (), ⟨s.k + 1, s.trace ++ [Evt.callEvt host plug stv, Evt.sendEvt host c d]⟩) := by
  rw [set_plug_state]
  by_cases hp : plug > 0
  · refine ⟨.obj cmdSysinfo, ?_⟩
    have hx : extract_sysinfo (JVal.obj []) = JVal.obj [] := rfl
    have hy : truthy (JVal.obj []) = false := rfl
    simp [send_to_plug, get_sysinfo, sendC, hp, h, pushEvt, hx, hy]
  · refine ⟨.obj (cmdSetRelay stv), ?_⟩
    simp [send_to_plug, sendC, hp, h, pushEvt]

/-- A trace whose events all refer to a different host contributes no
delivered frame to the count for a. -/
lemma countP_zero_of_host (tr : List Evt) (hst a : String)
    (hh : ∀ e ∈ tr, evtHost e = hst) (hne : hst ≠ a) :
    List.countP (isDeliveredTo a) tr = 0 := by
  rw [List.countP_eq_zero]
  intro e he
  have hhost := hh e he
  cases e with
  | callEvt h p st => simp [isDeliveredTo]
  | sendEvt h c d =>
      simp only [evtHost] at hhost
      subst hhost
      simp [isDeliveredTo, hne]

/-- Under an environment where every send returns an empty dict, the
fan-out switches the main outlet, then exactly the enabled auxiliary
outlets, in configuration order, and no exception is raised. -/
lemma fanout_empty (env : Nat → SendRes) (stv : Int) (cfg : Config)
    (h : ∀ n, ∃ d, env n = SendRes.val d (JVal.obj [])) :
    (psu_fanout env stv cfg ⟨0, []⟩).1 = Except.ok () ∧
    callsOf (psu_fanout env stv cfg ⟨0, []⟩).2.trace =
      (cfg.address, cfg.plug, stv) ::
        ((if cfg.lightEnabled then [(cfg.lightAddress, cfg.lightPlug, stv)] else []) ++
         (if cfg.otherEnabled then [(cfg.otherAddress, cfg.otherPlug, stv)] else [])) := by
  obtain ⟨d0, h0⟩ := h 0
  obtain ⟨c1, h1⟩ := sps_empty env stv cfg.address cfg.plug ⟨0, []⟩ d0 h0
  cases hl : cfg.lightEnabled with
  | false =>
      cases ho : cfg.otherEnabled with
      | false =>
          simp [psu_fanout, h1, hl, ho, callsOf]
      | true =>
          obtain ⟨d1, hv1⟩ := h 1
          obtain ⟨c2, h2⟩ := sps_empty env stv cfg.otherAddress cfg.otherPlug
            ⟨1, [Evt.callEvt cfg.address cfg.plug stv, Evt.sendEvt cfg.address c1 d0]⟩ d1 hv1
          simp [psu_fanout, h1, hl, ho, h2, callsOf]
  | true =>
      obtain ⟨d1, hv1⟩ := h 1
      obtain ⟨c2, h2⟩ := sps_empty env stv cfg.lightAddress cfg.lightPlug
        ⟨1, [Evt.callEvt cfg.address cfg.plug stv, Evt.sendEvt cfg.address c1 d0]⟩ d1 hv1
      cases ho : cfg.otherEnabled with
      | false =>
          simp [psu_fanout, h1, hl, ho, h2, callsOf]
      | true =>
          obtain ⟨d2, hv2⟩ := h 2
          obtain ⟨c3, h3⟩ := sps_empty env stv cfg.otherAddress cfg.otherPlug
            ⟨2, [Evt.callEvt cfg.address cfg.plug stv, Evt.sendEvt cfg.address c1 d0,
                 Evt.callEvt cfg.lightAddress cfg.lightPlug stv,
                 Evt.sendEvt cfg.lightAddress c2 d1]⟩ d2 hv2
          simp [psu_fanout, h1, hl, ho, h2, h3, callsOf]

/-! ## Claim theorems -/

/-- Claim C1: for every byte sequence x, including the empty one,
decoding the encoding of x with the cipher codec returns x, where the
encoder starts from key 171 and evolves the key from each output byte
and the decoder starts from key 171 and evolves the key from each input
byte.  (Stated for arbitrary lists of naturals, which includes all byte
sequences.) -/
theorem cipher_roundtrip (x : List Nat) : decrypt (encryptStream 171 x) = x :=
  decryptStream_encryptStream 171 x

/-- Claim C4: for a plaintext command of length L with 0 <= L <= 255, the
outgoing frame built by encrypt and written by the transport is the
4-byte header 0x00 0x00 0x00 (L mod 256) followed by the cipher-codec
encoding of the command. -/
theorem encrypt_frame_header (cmd : List Nat) (h : cmd.length ≤ 255) :
    encrypt cmd = some ([0, 0, 0, cmd.length % 256] ++ encryptStream 171 cmd) := by
  have hlt : cmd.length < 256 := Nat.lt_succ_of_le h
  rw [encrypt, if_pos h, Nat.mod_eq_of_lt hlt]

theorem encrypt_frame_header_witness :
    encrypt [123] = some ([0, 0, 0, [123].length % 256] ++ encryptStream 171 [123]) :=
  encrypt_frame_header [123] (by decide)

/-- Claim C9: encrypt is total only on plaintexts of length at most 255:
for a longer plaintext, bytes([len(string)]) raises ValueError (modelled
as encrypt returning none), and in the transport this exception escapes
before any frame is written to the wire (sent = false), rather than a
header byte equal to the length mod 256 being emitted. -/
theorem encrypt_overlong_raises :
    (∀ s : List Nat, 255 < s.length → encrypt s = none) ∧
    (∀ (fuel : Nat) (env : NetEnv) (cmd : List Nat), 255 < cmd.length →
      env.resolves = true → env.connects = true →
      sendModel fuel env cmd = some ⟨SendResult.raised PyErr.valueError, false, false⟩) := by
  constructor
  · intro s h
    rw [encrypt, if_neg (by omega)]
  · intro fuel env cmd h hr hc
    have he : encrypt cmd = none := by rw [encrypt, if_neg (by omega)]
    simp [sendModel, hr, hc, he]

theorem encrypt_overlong_raises_witness :
    sendModel 1 ⟨true, true, true, false, fun _ => []⟩ (List.replicate 256 7) =
      some ⟨SendResult.raised PyErr.valueError, false, false⟩ :=
  encrypt_overlong_raises.2 1 ⟨true, true, true, false, fun _ => []⟩
    (List.replicate 256 7) (by rw [List.length_replicate]; omega) rfl rfl

/-- Claim C8 (code_bug evidence): the transport closes the socket only on
the success path.  With name resolution and connect succeeding and the
send call failing with socket.error, send returns the neutral empty
result from the except branch of line 236 without executing s.close(),
so the successfully opened connection is left open (closed = false);
the success-path call for contrast does close it (closed = true). -/
theorem send_close_leak :
    sendModel 1 ⟨true, true, false, false, fun _ => []⟩ [123] =
      some ⟨SendResult.emptyResult, false, false⟩ ∧
    sendModel 1 ⟨true, true, true, false, fun _ => [0, 0, 0, 0]⟩ [123] =
      some ⟨SendResult.plaintext (decrypt []), true, true⟩ :=
  ⟨rfl, rfl⟩

/-- Claim C2 (code_bug evidence): with a well-formed multi-outlet
SystemInfo holding one child and configured plugIndex 2, the children
indexing at line 167 raises IndexError, which the except clause of line
168 (catching only KeyError) does not catch, so the error escapes
get_plug_state instead of false being returned. -/
theorem plug_state_out_of_range_raises :
    get_plug_state_body
      (JVal.obj [("children", JVal.arr [JVal.obj [("id", JVal.str "A"), ("state", JVal.num 0)]])])
      2 = Except.error PyErr.indexError := rfl

/-- Claim C5 (code_bug evidence): an error does escape the device command
client boundary.  With the transport succeeding and the device answering
the sysinfo query with a well-formed one-child response, get_plug_state
called with plugIndex 2 raises an uncaught IndexError to its caller
instead of returning a neutral false. -/
theorem client_error_escape :
    (get_plug_state
      (fun _ => SendRes.val true
        (JVal.obj [("system", JVal.obj [("get_sysinfo",
          JVal.obj [("children",
            JVal.arr [JVal.obj [("id", JVal.str "A"), ("state", JVal.num 0)]])])])]))
      "192.0.2.1" 2 ⟨0, []⟩).1 = Except.error PyErr.indexError := rfl

/-- Claim C3: behaviour of send_to_plug.  With plugIndex 0 the command is
sent as built, with no child-scoping context.  With plugIndex > 0 the
client first sends the sysinfo query; when the resolution of
children[plug-1]['id'] succeeds it sends the command updated with a
context.child_ids single-element list holding the resolved id (and the
updated command's context key holds exactly that list); when the sysinfo
is empty/falsy, or the id lookup fails with the caught KeyError, no
further frame is sent at all and the call returns normally. -/
theorem send_to_plug_child_scoping :
    (∀ (env : Nat → SendRes) (cmd : List (String × JVal)) (host : String) (s : St)
        (d : Bool) (v : JVal),
      env s.k = SendRes.val d v →
      send_to_plug env cmd host 0 s =
        (Except.ok (), ⟨s.k + 1, s.trace ++ [Evt.sendEvt host (JVal.obj cmd) d]⟩)) ∧
    (∀ (env : Nat → SendRes) (cmd : List (String × JVal)) (host : String) (plug : Nat)
        (s : St) (d₁ : Bool) (v : JVal) (d₂ : Bool) (w : JVal) (devId : JVal),
      0 < plug →
      env s.k = SendRes.val d₁ v →
      truthy (extract_sysinfo v) = true →
      resolve_child (extract_sysinfo v) plug "id" = Except.ok devId →
      env (s.k + 1) = SendRes.val d₂ w →
      send_to_plug env cmd host plug s =
        (Except.ok (), ⟨s.k + 1 + 1, s.trace ++
          [Evt.sendEvt host (JVal.obj cmdSysinfo) d₁,
           Evt.sendEvt host (JVal.obj (dictSet cmd "context"
             (JVal.obj [("child_ids", JVal.arr [devId])]))) d₂]⟩) ∧
        lookupField (dictSet cmd "context" (JVal.obj [("child_ids", JVal.arr [devId])]))
          "context" = some (JVal.obj [("child_ids", JVal.arr [devId])])) ∧
    (∀ (env : Nat → SendRes) (cmd : List (String × JVal)) (host : String) (plug : Nat)
        (s : St) (d₁ : Bool) (v : JVal),
      0 < plug →
      env s.k = SendRes.val d₁ v →
      truthy (extract_sysinfo v) = false →
      send_to_plug env cmd host plug s =
        (Except.ok (), ⟨s.k + 1, s.trace ++ [Evt.sendEvt host (JVal.obj cmdSysinfo) d₁]⟩)) ∧
    (∀ (env : Nat → SendRes) (cmd : List (String × JVal)) (host : String) (plug : Nat)
        (s : St) (d₁ : Bool) (v : JVal),
      0 < plug →
      env s.k = SendRes.val d₁ v →
      resolve_child (extract_sysinfo v) plug "id" = Except.error PyErr.keyError →
      send_to_plug env cmd host plug s =
        (Except.ok (), ⟨s.k + 1, s.trace ++ [Evt.sendEvt host (JVal.obj cmdSysinfo) d₁]⟩)) := by
  refine ⟨?_, ?_, ?_, ?_⟩
  · intro env cmd host s d v h
    simp [send_to_plug, sendC, h]
  · intro env cmd host plug s d₁ v d₂ w devId hp h0 ht hrc h1
    refine ⟨?_, lookupField_dictSet cmd "context" _⟩
    simp [send_to_plug, get_sysinfo, sendC, hp, h0, ht, hrc, h1]
  · intro env cmd host plug s d₁ v hp h0 ht
    simp [send_to_plug, get_sysinfo, sendC, hp, h0, ht]
  · intro env cmd host plug s d₁ v hp h0 hrc
    simp [send_to_plug, get_sysinfo, sendC, hp, h0, hrc]

/-- Witness for C3 at the two-child example of the specification:
children = [{id: A, state: 0}, {id: B, state: 1}] and plugIndex 2 resolve
device id B, and the relay command goes out wrapped with
context.child_ids = [B] after the sysinfo query. -/
theorem send_to_plug_child_scoping_witness :
    send_to_plug
      (fun n => if n = 0 then
          SendRes.val true (JVal.obj [("system", JVal.obj [("get_sysinfo",
            JVal.obj [("children", JVal.arr
              [JVal.obj [("id", JVal.str "A"), ("state", JVal.num 0)],
               JVal.obj [("id", JVal.str "B"), ("state", JVal.num 1)]])])])])
        else SendRes.val true (JVal.obj []))
      (cmdSetRelay 1) "192.0.2.9" 2 ⟨0, []⟩ =
      (Except.ok (), ⟨2, [Evt.sendEvt "192.0.2.9" (JVal.obj cmdSysinfo) true,
        Evt.sendEvt "192.0.2.9" (JVal.obj (dictSet (cmdSetRelay 1) "context"
          (JVal.obj [("child_ids", JVal.arr [JVal.str "B"])]))) true]⟩) :=
  (send_to_plug_child_scoping.2.1
    (fun n => if n = 0 then
        SendRes.val true (JVal.obj [("system", JVal.obj [("get_sysinfo",
          JVal.obj [("children", JVal.arr
            [JVal.obj [("id", JVal.str "A"), ("state", JVal.num 0)],
             JVal.obj [("id", JVal.str "B"), ("state", JVal.num 1)]])])])])
      else SendRes.val true (JVal.obj []))
    (cmdSetRelay 1) "192.0.2.9" 2 ⟨0, []⟩ true
    (JVal.obj [("system", JVal.obj [("get_sysinfo",
      JVal.obj [("children", JVal.arr
        [JVal.obj [("id", JVal.str "A"), ("state", JVal.num 0)],
         JVal.obj [("id", JVal.str "B"), ("state", JVal.num 1)]])])])])
    true (JVal.obj []) (JVal.str "B") (by decide) rfl rfl rfl rfl).1

/-- Claim C6, counterexample to the claim as stated: the response stream
delivers in its single read a prefix declaring L = 1 followed by TWO
payload bytes.  The transport returns the decode of both bytes
(data[4:], line 252), a plaintext of length 2, not of exactly the
declared length 1 — so it does not decode exactly bytes 4..4+L. -/
theorem recv_decode_counterexample :
    parseLen [0, 0, 0, 1, 10, 20] = some 1 ∧
    sendModel 1 ⟨true, true, true, false, fun n => if n = 0 then [0, 0, 0, 1, 10, 20] else []⟩
        [123] = some ⟨SendResult.plaintext (decrypt [10, 20]), true, true⟩ ∧
    (decrypt [10, 20]).length ≠ 1 :=
  ⟨rfl, rfl, by decide⟩

/-- Claim C6 as amended: when the first read holds a full 4-byte prefix
declaring payload length L and the loop returns, the transport has
accumulated whole reads until at least L payload bytes beyond the prefix
arrived (and no further read happened: every earlier accumulation was
below the threshold), and then decodes ALL accumulated bytes from offset
4 to the end as the plaintext returned to the caller — which is exactly
L bytes precisely when the accumulated data holds exactly L payload
bytes. -/
theorem recv_decode_spec (fuel : Nat) (env : NetEnv) (cmd : List Nat) (L : Nat)
    (data : List Nat)
    (hr : env.resolves = true) (hcn : env.connects = true) (hcmd : cmd.length ≤ 255)
    (hs : env.sendOk = true) (ht : env.recvTimeout = false)
    (hL : parseLen (env.chunks 0) = some L)
    (hloop : recvLoop fuel env.chunks L (env.chunks 0) 1 = some data) :
    sendModel fuel env cmd = some ⟨SendResult.plaintext (decrypt (data.drop 4)), true, true⟩ ∧
    L + 4 ≤ data.length ∧
    (∃ n, data = accum env.chunks n ∧ ∀ m, m < n → (accum env.chunks m).length < L + 4) ∧
    (decrypt (data.drop 4)).length = data.length - 4 := by
  obtain ⟨hlen, m, _, hdata, hmin⟩ := recvLoop_sound env.chunks L fuel 0 data hloop
  refine ⟨?_, hlen, ⟨m, hdata, fun j hj => hmin j (Nat.zero_le j) hj⟩, ?_⟩
  · have henc : encrypt cmd = some ([0, 0, 0, cmd.length] ++ encryptStream 171 cmd) := by
      rw [encrypt, if_pos hcmd]
    simp [sendModel, hr, hcn, hs, ht, hL, hloop, henc]
  · rw [decrypt, decryptStream_length, List.length_drop]

theorem recv_decode_spec_witness :
    sendModel 2 ⟨true, true, true, false,
        fun n => if n = 0 then [0, 0, 0, 2, 5] else if n = 1 then [9, 9] else []⟩ [123] =
      some ⟨SendResult.plaintext (decrypt ([0, 0, 0, 2, 5, 9, 9].drop 4)), true, true⟩ :=
  (recv_decode_spec 2
    ⟨true, true, true, false, fun n => if n = 0 then [0, 0, 0, 2, 5] else if n = 1 then [9, 9] else []⟩
    [123] 2 [0, 0, 0, 2, 5, 9, 9] rfl rfl (by decide) rfl rfl rfl rfl).1

/-- Claim C10: the receive loop of send (with the prefix parsed as L)
terminates if and only if the successive reads eventually accumulate at
least L payload bytes beyond the 4-byte prefix; in particular, since the
blocking socket has no timeout configured, a peer that stops sending —
every read after the first returning the empty chunk while the threshold
is unreached — makes the loop run forever (no fuel suffices) instead of
a timeout being raised. -/
theorem recv_loop_termination (chunks : Nat → List Nat) (L : Nat) :
    ((∃ fuel data, recvLoop fuel chunks L (chunks 0) 1 = some data) ↔
      ∃ n, L + 4 ≤ (accum chunks n).length) ∧
    ((∀ m, 1 ≤ m → chunks m = []) → (chunks 0).length < L + 4 →
      ∀ fuel, recvLoop fuel chunks L (chunks 0) 1 = none) := by
  constructor
  · constructor
    · rintro ⟨fuel, data, h⟩
      obtain ⟨hlen, m, _, hdata, _⟩ := recvLoop_sound chunks L fuel 0 data h
      exact ⟨m, hdata ▸ hlen⟩
    · rintro ⟨n, hn⟩
      have h := recvLoop_complete chunks L n 0 (by simpa using hn)
      exact h
  · intro hempty hshort fuel
    cases hres : recvLoop fuel chunks L (chunks 0) 1 with
    | none => rfl
    | some data =>
        obtain ⟨hlen, m, _, hdata, _⟩ := recvLoop_sound chunks L fuel 0 data hres
        rw [hdata, accum_const_of_empty chunks hempty m] at hlen
        omega

theorem recv_loop_termination_witness :
    recvLoop 3 (fun _ => ([] : List Nat)) 0 [] 1 = none :=
  (recv_loop_termination (fun _ => []) 0).2 (fun _ _ => rfl) (by decide) 3

/-- Claim C7: turn_psu_on (and symmetrically turn_psu_off) switches the
main outlet first, then every auxiliary outlet whose enabled flag is
true, in configuration order, skipping disabled outlets; the calls are
independent: under transport failures (send returning the neutral empty
dict) every outlet is still attempted and no exception is raised; and
with the main outlet's command delivered, whatever the later calls do
(including raising), the main outlet's command is delivered exactly once
when the auxiliary addresses differ from the main one. -/
theorem fanout_order_independence :
    (∀ (cfg : Config) (env : Nat → SendRes),
      (∀ n, ∃ d, env n = SendRes.val d (JVal.obj [])) →
      (turn_psu_on env cfg ⟨0, []⟩).1 = Except.ok () ∧
      callsOf (turn_psu_on env cfg ⟨0, []⟩).2.trace =
        (cfg.address, cfg.plug, (1 : Int)) ::
          ((if cfg.lightEnabled then [(cfg.lightAddress, cfg.lightPlug, (1 : Int))] else []) ++
           (if cfg.otherEnabled then [(cfg.otherAddress, cfg.otherPlug, (1 : Int))] else []))) ∧
    (∀ (cfg : Config) (env : Nat → SendRes),
      (∀ n, ∃ d, env n = SendRes.val d (JVal.obj [])) →
      (turn_psu_off env cfg ⟨0, []⟩).1 = Except.ok () ∧
      callsOf (turn_psu_off env cfg ⟨0, []⟩).2.trace =
        (cfg.address, cfg.plug, (0 : Int)) ::
          ((if cfg.lightEnabled then [(cfg.lightAddress, cfg.lightPlug, (0 : Int))] else []) ++
           (if cfg.otherEnabled then [(cfg.otherAddress, cfg.otherPlug, (0 : Int))] else []))) ∧
    (∀ (cfg : Config) (env : Nat → SendRes) (v : JVal),
      cfg.plug = 0 →
      cfg.lightAddress ≠ cfg.address →
      cfg.otherAddress ≠ cfg.address →
      env 0 = SendRes.val true v →
      deliveredTo (turn_psu_on env cfg ⟨0, []⟩).2.trace cfg.address = 1) := by
  refine ⟨?_, ?_, ?_⟩
  · intro cfg env h
    exact fanout_empty env 1 cfg h
  · intro cfg env h
    exact fanout_empty env 0 cfg h
  · intro cfg env v hp hla hoa h0
    have hmain : set_plug_state env 1 cfg.address 0 ⟨0, []⟩ =
        (Except.ok (), ⟨1, [Evt.callEvt cfg.address 0 1,
          Evt.sendEvt cfg.address (JVal.obj (cmdSetRelay 1)) true]⟩) := by
      simp [set_plug_state, send_to_plug, sendC, pushEvt, h0]
    have hone : List.countP (isDeliveredTo cfg.address)
        [Evt.callEvt cfg.address 0 1,
         Evt.sendEvt cfg.address (JVal.obj (cmdSetRelay 1)) true] = 1 := by
      simp [List.countP_cons, List.countP_nil, isDeliveredTo]
    simp only [turn_psu_on, psu_fanout]
    rw [hp, hmain]
    cases hl2 : cfg.lightEnabled with
    | false =>
        cases ho2 : cfg.otherEnabled with
        | false =>
            simp only [hl2, ho2, Bool.false_eq_true, if_false]
            simpa [deliveredTo] using hone
        | true =>
            obtain ⟨tro, htro, hho⟩ := sps_host env 1 cfg.otherAddress cfg.otherPlug
              ⟨1, [Evt.callEvt cfg.address 0 1,
                   Evt.sendEvt cfg.address (JVal.obj (cmdSetRelay 1)) true]⟩
            simp only [hl2, ho2, Bool.false_eq_true, if_false, if_true]
            rw [deliveredTo, htro, List.countP_append,
              countP_zero_of_host tro cfg.otherAddress cfg.address hho hoa]
            simpa using hone
    | true =>
        obtain ⟨trl, htrl, hhl⟩ := sps_host env 1 cfg.lightAddress cfg.lightPlug
          ⟨1, [Evt.callEvt cfg.address 0 1,
               Evt.sendEvt cfg.address (JVal.obj (cmdSetRelay 1)) true]⟩
        rcases hres : set_plug_state env 1 cfg.lightAddress cfg.lightPlug
          ⟨1, [Evt.callEvt cfg.address 0 1,
               Evt.sendEvt cfg.address (JVal.obj (cmdSetRelay 1)) true]⟩ with ⟨res, s2⟩
        rw [hres] at htrl
        simp only [hl2, if_true, hres]
        cases res with
        | error e =>
            rw [deliveredTo]
            rw [htrl, List.countP_append,
              countP_zero_of_host trl cfg.lightAddress cfg.address hhl hla]
            simpa using hone
        | ok u =>
            cases ho2 : cfg.otherEnabled with
            | false =>
                simp only [ho2, Bool.false_eq_true, if_false]
                rw [deliveredTo]
                rw [htrl, List.countP_append,
                  countP_zero_of_host trl cfg.lightAddress cfg.address hhl hla]
                simpa using hone
            | true =>
                obtain ⟨tro, htro2, hho⟩ := sps_host env 1 cfg.otherAddress cfg.otherPlug s2
                simp only [ho2, if_true]
                rw [deliveredTo]
                rw [htro2, List.countP_append, htrl, List.countP_append,
                  countP_zero_of_host trl cfg.lightAddress cfg.address hhl hla,
                  countP_zero_of_host tro cfg.otherAddress cfg.address hho hoa]
                simpa using hone

/-- Witness for C7: main outlet at address a with plug 0 delivered, light
outlet enabled at address b with its transport failing, other outlet
disabled — the main outlet's command is delivered exactly once. -/
theorem fanout_order_independence_witness :
    deliveredTo (turn_psu_on
        (fun n => if n = 0 then SendRes.val true (JVal.obj []) else SendRes.val false (JVal.obj []))
        ⟨"a", 0, true, "b", 3, false, "c", 1⟩ ⟨0, []⟩).2.trace "a" = 1 :=
  fanout_order_independence.2.2
    ⟨"a", 0, true, "b", 3, false, "c", 1⟩
    (fun n => if n = 0 then SendRes.val true (JVal.obj []) else SendRes.val false (JVal.obj []))
    (JVal.obj []) rfl (by decide) (by decide) rfl

end TPLink
